import Mathlib

/-!
Shallow embedding of the media stream session controller of
`src/src/voip/mediastream.c` (and the VideoToolbox decoder of
`src/src/voip/h26x/videotoolbox-decoder.cpp`), together with theorems
settling the specification claims about it.

External handles (RtpSession, contexts, filters, …) are modelled as
`Option Nat` (a handle id when present, `none` for NULL).  Side effects
on collaborators are modelled either as explicit state fields or as
traces of action labels.
-/

namespace Mediastream

/-! ### String helpers: C `strstr` and `atoi` -/

/-- Does `pat` occur at the head of `l`?  (`strncmp(pat, l, |pat|) == 0`). -/
def charsLeads : List Char → List Char → Bool
  | [], _ => true
  | _ :: _, [] => false
  | c :: cs, d :: ds => c = d && charsLeads cs ds

/-- Does `pat` occur somewhere inside `hay`?  (C `strstr(hay, pat) != NULL`). -/
def charsHasSub (hay pat : List Char) : Bool :=
  match hay with
  | [] => pat.isEmpty
  | _ :: rest => charsLeads pat hay || charsHasSub rest pat

/-- C `strstr(hay, pat) != NULL` on strings. -/
def strstrB (hay pat : String) : Bool :=
  charsHasSub hay.data pat.data

/-- Digits-part of C `atoi`: consume leading decimal digits, 0 if none. -/
def atoiDigits : List Char → Nat → Nat
  | [], acc => acc
  | c :: cs, acc =>
      if c.isDigit then atoiDigits cs (acc * 10 + (c.toNat - 48)) else acc

/-- C `atoi`: skip leading spaces, optional sign, then leading digits;
a string with no leading number yields 0. -/
def atoi (s : String) : Int :=
  match s.data.dropWhile (fun c => c = ' ' || c = '\t') with
  | '-' :: rest => -(atoiDigits rest 0 : Int)
  | '+' :: rest => (atoiDigits rest 0 : Int)
  | rest => (atoiDigits rest 0 : Int)

/-! ### Crypto suites (`MSCryptoSuite`, `mediastream.c:621-737`) -/

inductive MSCryptoSuite where
  | MS_CRYPTO_SUITE_INVALID
  | MS_AES_128_SHA1_80
  | MS_AES_128_SHA1_32
  | MS_AES_128_SHA1_80_NO_AUTH
  | MS_AES_128_SHA1_32_NO_AUTH
  | MS_AES_128_SHA1_80_SRTP_NO_CIPHER
  | MS_AES_128_SHA1_80_SRTCP_NO_CIPHER
  | MS_AES_128_SHA1_80_NO_CIPHER
  | MS_AES_256_SHA1_80
  | MS_AES_CM_256_SHA1_80
  | MS_AES_256_SHA1_32
  | MS_AEAD_AES_128_GCM
  | MS_AEAD_AES_256_GCM
  deriving DecidableEq, Repr

open MSCryptoSuite

/-- `MSCryptoSuiteNameParams`: SDP crypto-suite descriptor; `params = none`
models a NULL params pointer. -/
structure MSCryptoSuiteNameParams where
  name : String
  params : Option String
  deriving DecidableEq, Repr

/-- `strstr(parameters, pat)` where `parameters` may be NULL. -/
def paramsHas (params : Option String) (pat : String) : Bool :=
  match params with
  | none => false
  | some p => strstrB p pat

/-- Shared sub-branch of `ms_crypto_suite_build_from_name_params`: the
parameter check used for the suites that accept no parameters token
(returns `suite` only when none of the four tokens is present). -/
def buildNoParamsTokens (params : Option String) (suite : MSCryptoSuite) : MSCryptoSuite :=
  if paramsHas params "UNENCRYPTED_SRTP" && paramsHas params "UNENCRYPTED_SRTCP" then
    MS_CRYPTO_SUITE_INVALID
  else if paramsHas params "UNENCRYPTED_SRTP" then MS_CRYPTO_SUITE_INVALID
  else if paramsHas params "UNENCRYPTED_SRTCP" then MS_CRYPTO_SUITE_INVALID
  else if paramsHas params "UNAUTHENTICATED_SRTP" then MS_CRYPTO_SUITE_INVALID
  else suite

/-- `ms_crypto_suite_build_from_name_params` (`mediastream.c:627-676`).
`keywordcmp` compares through the terminating NUL, hence exact equality. -/
def ms_crypto_suite_build_from_name_params (d : MSCryptoSuiteNameParams) : MSCryptoSuite :=
  if d.name = "AES_CM_128_HMAC_SHA1_80" then
    if paramsHas d.params "UNENCRYPTED_SRTP" && paramsHas d.params "UNENCRYPTED_SRTCP" then
      MS_AES_128_SHA1_80_NO_CIPHER
    else if paramsHas d.params "UNENCRYPTED_SRTP" then MS_AES_128_SHA1_80_SRTP_NO_CIPHER
    else if paramsHas d.params "UNENCRYPTED_SRTCP" then MS_AES_128_SHA1_80_SRTCP_NO_CIPHER
    else if paramsHas d.params "UNAUTHENTICATED_SRTP" then MS_AES_128_SHA1_80_NO_AUTH
    else MS_AES_128_SHA1_80
  else if d.name = "AES_CM_128_HMAC_SHA1_32" then
    if paramsHas d.params "UNENCRYPTED_SRTP" && paramsHas d.params "UNENCRYPTED_SRTCP" then
      MS_CRYPTO_SUITE_INVALID
    else if paramsHas d.params "UNENCRYPTED_SRTP" then MS_CRYPTO_SUITE_INVALID
    else if paramsHas d.params "UNENCRYPTED_SRTCP" then MS_CRYPTO_SUITE_INVALID
    else if paramsHas d.params "UNAUTHENTICATED_SRTP" then MS_AES_128_SHA1_32_NO_AUTH
    else MS_AES_128_SHA1_32
  else if d.name = "AES_256_CM_HMAC_SHA1_32" then
    buildNoParamsTokens d.params MS_AES_256_SHA1_32
  else if d.name = "AES_256_CM_HMAC_SHA1_80" then
    buildNoParamsTokens d.params MS_AES_256_SHA1_80
  else if d.name = "AES_CM_256_HMAC_SHA1_80" then
    buildNoParamsTokens d.params MS_AES_CM_256_SHA1_80
  else if d.name = "AEAD_AES_128_GCM" then
    buildNoParamsTokens d.params MS_AEAD_AES_128_GCM
  else if d.name = "AEAD_AES_256_GCM" then
    buildNoParamsTokens d.params MS_AEAD_AES_256_GCM
  else MS_CRYPTO_SUITE_INVALID

/-- `ms_crypto_suite_to_name_params` (`mediastream.c:687-737`); the
`return -1` path (name left NULL, i.e. `MS_CRYPTO_SUITE_INVALID`) is
modelled as `none`. -/
def ms_crypto_suite_to_name_params (cs : MSCryptoSuite) : Option MSCryptoSuiteNameParams :=
  match cs with
  | MS_CRYPTO_SUITE_INVALID => none
  | MS_AES_128_SHA1_80 => some ⟨"AES_CM_128_HMAC_SHA1_80", none⟩
  | MS_AES_128_SHA1_32 => some ⟨"AES_CM_128_HMAC_SHA1_32", none⟩
  | MS_AES_128_SHA1_80_NO_AUTH => some ⟨"AES_CM_128_HMAC_SHA1_80", some "UNAUTHENTICATED_SRTP"⟩
  | MS_AES_128_SHA1_32_NO_AUTH => some ⟨"AES_CM_128_HMAC_SHA1_32", some "UNAUTHENTICATED_SRTP"⟩
  | MS_AES_128_SHA1_80_SRTP_NO_CIPHER => some ⟨"AES_CM_128_HMAC_SHA1_80", some "UNENCRYPTED_SRTP"⟩
  | MS_AES_128_SHA1_80_SRTCP_NO_CIPHER => some ⟨"AES_CM_128_HMAC_SHA1_80", some "UNENCRYPTED_SRTCP"⟩
  | MS_AES_128_SHA1_80_NO_CIPHER =>
      some ⟨"AES_CM_128_HMAC_SHA1_80", some "UNENCRYPTED_SRTP UNENCRYPTED_SRTCP"⟩
  | MS_AES_256_SHA1_80 => some ⟨"AES_256_CM_HMAC_SHA1_80", none⟩
  | MS_AES_CM_256_SHA1_80 => some ⟨"AES_CM_256_HMAC_SHA1_80", none⟩
  | MS_AES_256_SHA1_32 => some ⟨"AES_256_CM_HMAC_SHA1_32", none⟩
  | MS_AEAD_AES_128_GCM => some ⟨"AEAD_AES_128_GCM", none⟩
  | MS_AEAD_AES_256_GCM => some ⟨"AEAD_AES_256_GCM", none⟩

/-- The (name, params) pairs listed as valid in the §6 table, in their
canonical spelling. -/
def validNameParamsTable : List MSCryptoSuiteNameParams :=
  [⟨"AES_CM_128_HMAC_SHA1_80", none⟩,
   ⟨"AES_CM_128_HMAC_SHA1_80", some "UNENCRYPTED_SRTP"⟩,
   ⟨"AES_CM_128_HMAC_SHA1_80", some "UNENCRYPTED_SRTCP"⟩,
   ⟨"AES_CM_128_HMAC_SHA1_80", some "UNENCRYPTED_SRTP UNENCRYPTED_SRTCP"⟩,
   ⟨"AES_CM_128_HMAC_SHA1_80", some "UNAUTHENTICATED_SRTP"⟩,
   ⟨"AES_CM_128_HMAC_SHA1_32", none⟩,
   ⟨"AES_CM_128_HMAC_SHA1_32", some "UNAUTHENTICATED_SRTP"⟩,
   ⟨"AES_256_CM_HMAC_SHA1_32", none⟩,
   ⟨"AES_256_CM_HMAC_SHA1_80", none⟩,
   ⟨"AES_CM_256_HMAC_SHA1_80", none⟩,
   ⟨"AEAD_AES_128_GCM", none⟩,
   ⟨"AEAD_AES_256_GCM", none⟩]

/-- The (name, params) combinations marked Invalid in the §6 table:
`AES_CM_128_HMAC_SHA1_32` with any `UNENCRYPTED_*` token, and the five
no-parameter suites with any of the four params tokens. -/
def invalidNameParamsTable : List MSCryptoSuiteNameParams :=
  (["AES_CM_128_HMAC_SHA1_32"].map fun n =>
    [MSCryptoSuiteNameParams.mk n (some "UNENCRYPTED_SRTP"),
     MSCryptoSuiteNameParams.mk n (some "UNENCRYPTED_SRTCP"),
     MSCryptoSuiteNameParams.mk n (some "UNENCRYPTED_SRTP UNENCRYPTED_SRTCP")]).flatten ++
  (["AES_256_CM_HMAC_SHA1_32", "AES_256_CM_HMAC_SHA1_80", "AES_CM_256_HMAC_SHA1_80",
    "AEAD_AES_128_GCM", "AEAD_AES_256_GCM"].map fun n =>
    [MSCryptoSuiteNameParams.mk n (some "UNENCRYPTED_SRTP"),
     MSCryptoSuiteNameParams.mk n (some "UNENCRYPTED_SRTCP"),
     MSCryptoSuiteNameParams.mk n (some "UNENCRYPTED_SRTP UNENCRYPTED_SRTCP"),
     MSCryptoSuiteNameParams.mk n (some "UNAUTHENTICATED_SRTP")]).flatten

/-- The seven crypto-suite names recognized by
`ms_crypto_suite_build_from_name_params`. -/
def knownSuiteNames : List String :=
  ["AES_CM_128_HMAC_SHA1_80", "AES_CM_128_HMAC_SHA1_32", "AES_256_CM_HMAC_SHA1_32",
   "AES_256_CM_HMAC_SHA1_80", "AES_CM_256_HMAC_SHA1_80", "AEAD_AES_128_GCM",
   "AEAD_AES_256_GCM"]

/-! ### Stream sessions, security contexts, free/reclaim
(`mediastream.c:210-259`, `325-342`, `556-559`) -/

/-- `MSMediaStreamSessions`: the sub-resource handles owned by a stream;
`none` models a NULL pointer. -/
structure MSMediaStreamSessions where
  rtp_session : Option Nat
  srtp_context : Option Nat
  zrtp_context : Option Nat
  dtls_context : Option Nat
  fec_session : Option Nat
  ticker : Option Nat
  deriving DecidableEq, Repr

/-- Number of non-NULL security contexts (ZRTP, DTLS-SRTP, SDES/SRTP)
held by the sessions aggregate. -/
def securityContextCount (s : MSMediaStreamSessions) : Nat :=
  (if s.zrtp_context ≠ none then 1 else 0) +
  (if s.dtls_context ≠ none then 1 else 0) +
  (if s.srtp_context ≠ none then 1 else 0)

/-- `MediaStream`: the fields of the stream aggregate touched by the
modelled operations. -/
structure MediaStream where
  sessions : MSMediaStreamSessions
  owns_sessions : Bool
  stun_allowed : Bool
  ice_check_list : Option Nat
  /-- `sessions.rtp_session->bundle && !sessions.rtp_session->is_primary` -/
  bundled_not_primary : Bool
  rtpsend : Option Nat
  /-- last value passed to `MS_RTP_SEND_ENABLE_STUN` on the rtpsend filter -/
  rtpsend_stun_enabled : Bool
  /-- last value passed to `MS_RTP_SEND_ENABLE_STUN_FORCED` on the rtpsend filter -/
  rtpsend_stun_forced : Bool
  evq : Option Nat
  evd : Option Nat
  rc : Option Nat
  rtprecv : Option Nat
  encoder : Option Nat
  decoder : Option Nat
  voidsink : Option Nat
  qi : Option Nat
  deriving DecidableEq, Repr

/-- `media_stream_configure_stun_packet_sending` (`mediastream.c:304-323`). -/
def media_stream_configure_stun_packet_sending (s : MediaStream) : MediaStream :=
  let stun_enabled := s.stun_allowed
  let stun_enabled := if s.ice_check_list ≠ none then false else stun_enabled
  let stun_enabled := if s.bundled_not_primary then false else stun_enabled
  if s.rtpsend ≠ none then
    let s := { s with rtpsend_stun_enabled := stun_enabled }
    if s.sessions.dtls_context ≠ none then { s with rtpsend_stun_forced := stun_enabled }
    else s
  else s

/-- `media_stream_enable_dtls` (`mediastream.c:325-334`); `newCtx` stands
for the context handle returned by `ms_dtls_srtp_context_new`. -/
def media_stream_enable_dtls (s : MediaStream) (newCtx : Nat) : MediaStream :=
  if s.sessions.dtls_context = none then
    media_stream_configure_stun_packet_sending
      { s with sessions := { s.sessions with dtls_context := some newCtx } }
  else s

/-- Labels for the sub-resources released during stream destruction. -/
inductive Resource where
  | srtpContext
  | rtpSessionRes
  | zrtpContext
  | dtlsContext
  | tickerRes
  | evQueue
  | evDispatcher
  | bitrateController
  | rtpsendFilter
  | rtprecvFilter
  | encoderFilter
  | decoderFilter
  | voidsinkFilter
  | qualityIndicator
  deriving DecidableEq, Repr

/-- `ms_media_stream_sessions_uninit` (`mediastream.c:210-232`): clears and
releases srtp context, rtp session, zrtp context, dtls context and ticker,
in source order; yields the cleared aggregate and the released resources. -/
def ms_media_stream_sessions_uninit (s : MSMediaStreamSessions) :
    MSMediaStreamSessions × List Resource :=
  ({ s with srtp_context := none, rtp_session := none, zrtp_context := none,
            dtls_context := none, ticker := none },
   (if s.srtp_context ≠ none then [Resource.srtpContext] else []) ++
   (if s.rtp_session ≠ none then [Resource.rtpSessionRes] else []) ++
   (if s.zrtp_context ≠ none then [Resource.zrtpContext] else []) ++
   (if s.dtls_context ≠ none then [Resource.dtlsContext] else []) ++
   (if s.ticker ≠ none then [Resource.tickerRes] else []))

/-- `media_stream_free` (`mediastream.c:234-259`): the sequence of
sub-resources it releases, in source order (the TMMBR handler removal and
the zrtp/dtls back-pointer clearing release nothing). -/
def media_stream_free (s : MediaStream) : List Resource :=
  (if s.evq ≠ none then [Resource.evQueue] else []) ++
  (if s.evd ≠ none then [Resource.evDispatcher] else []) ++
  (if s.owns_sessions then (ms_media_stream_sessions_uninit s.sessions).2 else []) ++
  (if s.rc ≠ none then [Resource.bitrateController] else []) ++
  (if s.rtpsend ≠ none then [Resource.rtpsendFilter] else []) ++
  (if s.rtprecv ≠ none then [Resource.rtprecvFilter] else []) ++
  (if s.encoder ≠ none then [Resource.encoderFilter] else []) ++
  (if s.decoder ≠ none then [Resource.decoderFilter] else []) ++
  (if s.voidsink ≠ none then [Resource.voidsinkFilter] else []) ++
  (if s.qi ≠ none then [Resource.qualityIndicator] else [])

/-- `media_stream_reclaim_sessions` (`mediastream.c:556-559`): copies the
session handles out and flips the stream to non-owning. -/
def media_stream_reclaim_sessions (s : MediaStream) : MSMediaStreamSessions × MediaStream :=
  (s.sessions, { s with owns_sessions := false })

/-! ### Stream kinds, lifecycle state, query operations
(`mediastream.c:561-603`) -/

inductive MSFormatType where
  | MSAudio
  | MSVideo
  | MSText
  | MSUnknownMedia
  deriving DecidableEq, Repr

inductive MSStreamState where
  | MSStreamInitialized
  | MSStreamPreparing
  | MSStreamStarted
  | MSStreamStopped
  deriving DecidableEq, Repr

inductive MediaStreamDir where
  | MediaStreamSendRecv
  | MediaStreamSendOnly
  | MediaStreamRecvOnly
  deriving DecidableEq, Repr

inductive MSSrtpKeySource where
  | MSSrtpKeySourceUnavailable
  | MSSrtpKeySourceSDES
  | MSSrtpKeySourceZRTP
  | MSSrtpKeySourceDTLS
  | MSSrtpKeySourceEKT
  deriving DecidableEq, Repr

/-- The fields of the stream consulted by the security query operations.
The three `underlying_*` fields model the results of the
`ms_media_stream_sessions_*` collaborator queries (ms_srtp module, outside
this excerpt), which are only consulted in the `Started` state on a known
media type. -/
structure QueryStream where
  state : MSStreamState
  type : MSFormatType
  direction : MediaStreamDir
  underlying_secured : MediaStreamDir → Bool
  underlying_key_source : MediaStreamDir → Bool → MSSrtpKeySource
  underlying_crypto_suite : MediaStreamDir → Bool → MSCryptoSuite

/-- `media_stream_secured` (`mediastream.c:561-573`). -/
def media_stream_secured (s : QueryStream) : Bool :=
  if s.state ≠ MSStreamState.MSStreamStarted then false
  else
    match s.type with
    | MSFormatType.MSAudio | MSFormatType.MSText | MSFormatType.MSVideo =>
        s.underlying_secured s.direction
    | MSFormatType.MSUnknownMedia => false

/-- `media_stream_get_srtp_key_source` (`mediastream.c:575-588`). -/
def media_stream_get_srtp_key_source (s : QueryStream) (dir : MediaStreamDir)
    (is_inner : Bool) : MSSrtpKeySource :=
  if s.state ≠ MSStreamState.MSStreamStarted then MSSrtpKeySource.MSSrtpKeySourceUnavailable
  else
    match s.type with
    | MSFormatType.MSAudio | MSFormatType.MSText | MSFormatType.MSVideo =>
        s.underlying_key_source dir is_inner
    | MSFormatType.MSUnknownMedia => MSSrtpKeySource.MSSrtpKeySourceUnavailable

/-- `media_stream_get_srtp_crypto_suite` (`mediastream.c:590-603`). -/
def media_stream_get_srtp_crypto_suite (s : QueryStream) (dir : MediaStreamDir)
    (is_inner : Bool) : MSCryptoSuite :=
  if s.state ≠ MSStreamState.MSStreamStarted then MS_CRYPTO_SUITE_INVALID
  else
    match s.type with
    | MSFormatType.MSAudio | MSFormatType.MSText | MSFormatType.MSVideo =>
        s.underlying_crypto_suite dir is_inner
    | MSFormatType.MSUnknownMedia => MS_CRYPTO_SUITE_INVALID

/-! ### TMMBR handling (`mediastream.c:812-897`) -/

/-- The stream fields read and written on the TMMBR path; the encoder is
modelled by a presence handle, the bitrate last pushed to it, and a count
of `MS_FILTER_SET_BITRATE` calls. -/
structure TmmbrStream where
  type : MSFormatType
  encoder : Option Nat
  encoder_bitrate : Option Int
  encoder_set_bitrate_calls : Nat
  max_target_bitrate : Int
  target_bitrate : Int
  /-- `rtp_session_get/set_target_upload_bandwidth` on the stream's session -/
  session_target_upload_bandwidth : Int
  audio_bandwidth_estimator_enabled : Bool
  audio_bw_estimator_present : Bool
  audio_bw_estimator_duplicate_rate : Nat
  deriving DecidableEq, Repr

/-- `update_bitrate_limit_from_tmmbr` (`mediastream.c:812-839`), returning
the C return value together with the updated state. -/
def update_bitrate_limit_from_tmmbr (obj : TmmbrStream) (br_limit : Int) :
    Int × TmmbrStream :=
  let previous_br_limit := obj.session_target_upload_bandwidth
  if obj.encoder = none then (-1, obj)
  else
    let br_limit :=
      if obj.max_target_bitrate > 0 ∧ br_limit > obj.max_target_bitrate then
        obj.max_target_bitrate
      else br_limit
    if previous_br_limit = br_limit then (-1, obj)
    else
      let obj :=
        if obj.type ≠ MSFormatType.MSVideo then
          { obj with encoder_bitrate := some br_limit,
                     encoder_set_bitrate_calls := obj.encoder_set_bitrate_calls + 1 }
        else obj
      (br_limit,
       { obj with target_bitrate := br_limit,
                  session_target_upload_bandwidth := br_limit })

/-- C `INT_MAX` on the modelled platform. -/
def INT_MAX : Int := 2147483647

/-- `media_stream_process_tmmbr` (`mediastream.c:841-897`) restricted to its
state effects: audio duplicate-rate correction, clamp to `INT_MAX`, then
`update_bitrate_limit_from_tmmbr` (the `VIDEO_ENABLED` tail only issues
further encoder-configuration calls on video streams). -/
def media_stream_process_tmmbr (ms : TmmbrStream) (tmmbr_mxtbr : Nat) : TmmbrStream :=
  let tmmbr_mxtbr :=
    if ms.type = MSFormatType.MSAudio ∧ ms.audio_bandwidth_estimator_enabled ∧
        ms.audio_bw_estimator_present then
      tmmbr_mxtbr - tmmbr_mxtbr / ms.audio_bw_estimator_duplicate_rate
    else tmmbr_mxtbr
  let br_int : Int := if (tmmbr_mxtbr : Int) < INT_MAX then (tmmbr_mxtbr : Int) else INT_MAX
  (update_bitrate_limit_from_tmmbr ms br_int).2

/-! ### Liveness (`mediastream.c:478-496`) -/

/-- The stream fields consulted by `media_stream_alive`. -/
structure AliveStream where
  state : MSStreamState
  last_packet_count : Nat
  last_packet_time : Int
  deriving DecidableEq, Repr

/-- `media_stream_alive` (`mediastream.c:478-496`); `stats_recv` is the
session's cumulative received-packet count and `now` the current
`ms_time`. -/
def media_stream_alive (ms : AliveStream) (stats_recv : Nat) (now : Int) (timeout : Int) :
    Bool × AliveStream :=
  if ms.state ≠ MSStreamState.MSStreamStarted then (true, ms)
  else
    let ms :=
      if stats_recv ≠ 0 then
        if stats_recv ≠ ms.last_packet_count then
          { ms with last_packet_count := stats_recv, last_packet_time := now }
        else ms
      else ms
    if now - ms.last_packet_time > timeout then (false, ms) else (true, ms)

/-! ### RTCP feedback processing (`mediastream.c:403-417`) -/

/-- A sub-packet of a compound RTCP packet: either well formed (identified
by an id) or malformed/truncated. -/
inductive RtcpSubPacket where
  | wellFormed (id : Nat)
  | malformed
  deriving DecidableEq, Repr

/-- Modelled from the spec: the oRTP compound-RTCP walker
(`rtcp_parser_context_init` / `rtcp_parser_context_next_packet`, not in
this excerpt) yields the well-formed sub-packets in arrival order, each
malformed or truncated sub-packet being dropped individually without
aborting the walk. -/
def rtcpWalkerPackets (subs : List RtcpSubPacket) : List Nat :=
  subs.filterMap fun s =>
    match s with
    | RtcpSubPacket.wellFormed n => some n
    | RtcpSubPacket.malformed => none

/-- Observable actions of `media_stream_process_rtcp`. -/
inductive RtcpAction where
  | updateLiveness
  | bitrateControl (id : Nat)
  | qualityUpdate (id : Nat)
  | typeHook (id : Nat)
  deriving DecidableEq, Repr

/-- The stream fields consulted by `media_stream_process_rtcp`. -/
structure RtcpStream where
  rc_enable : Bool
  rc : Option Nat
  qi : Option Nat
  last_packet_time : Int
  deriving DecidableEq, Repr

/-- Loop body of `media_stream_process_rtcp` (`mediastream.c:411-415`) for
one sub-packet: bitrate controller if adaptive control is enabled, quality
indicator if present, then the stream-type hook. -/
def rtcpSubPacketActions (s : RtcpStream) (id : Nat) : List RtcpAction :=
  (if s.rc_enable ∧ s.rc ≠ none then [RtcpAction.bitrateControl id] else []) ++
  (if s.qi ≠ none then [RtcpAction.qualityUpdate id] else []) ++
  [RtcpAction.typeHook id]

/-- `media_stream_process_rtcp` (`mediastream.c:403-417`): refresh the
liveness timestamp once, then walk the compound packet; yields the updated
stream and the trace of actions. -/
def media_stream_process_rtcp (s : RtcpStream) (subs : List RtcpSubPacket) (curtime : Int) :
    RtcpStream × List RtcpAction :=
  ({ s with last_packet_time := curtime },
   RtcpAction.updateLiveness ::
     (rtcpWalkerPackets subs).flatMap (rtcpSubPacketActions s))

/-! ### FEC coordination (`mediastream.c:938-997`) -/

/-- `FecParameters` as built by `fec_params_new(L, D, rw)`. -/
structure FecParameters where
  L : Int
  D : Int
  repair_window : Int
  deriving DecidableEq, Repr

/-- Modelled from the spec: oRTP's `fmtp_get_value` (not in this excerpt)
looks a key up in the payload type's fmtp attribute list and yields its
raw value string when present (the destination-buffer size at the call
sites is large enough for the values considered here). -/
def fmtp_get_value (fmtp : List (String × String)) (key : String) : Option String :=
  (fmtp.find? (fun kv => kv.1 = key)).map (fun kv => kv.2)

/-- `media_stream_extract_fec_params` (`mediastream.c:938-969`); the
payload type's `recv_fmtp` is modelled as a key/value list. -/
def media_stream_extract_fec_params (recv_fmtp : List (String × String)) : FecParameters :=
  let rw : Int :=
    match fmtp_get_value recv_fmtp "repair-window" with
    | some v => atoi v
    | none => 100000
  let L : Int :=
    match fmtp_get_value recv_fmtp "L" with
    | some v => atoi v
    | none => 10
  let D : Int :=
    match fmtp_get_value recv_fmtp "D" with
    | some v => atoi v
    | none => 0
  ⟨L, D, rw⟩

/-- The negotiated profile as consulted by `media_stream_handle_fec`:
`flexfec_payload` is the "flexfec" payload type when negotiated, carrying
its payload-type number and its `recv_fmtp`. -/
structure RtpProfile where
  flexfec_payload : Option (Int × List (String × String))
  deriving DecidableEq, Repr

/-- The FEC-related stream state touched by `media_stream_handle_fec`,
with call counters for the collaborator effects. -/
structure FecCoordState where
  rtp_jitter_compensation : Int
  fec_session : Option Nat
  fec_stream : Option Nat
  fec_stream_params : Option FecParameters
  fec_session_payload_type : Option Int
  /-- number of secondary `rtp_session_new` calls made so far -/
  fec_sessions_created : Nat
  /-- number of `rtp_bundle_add_fec_session` calls made so far -/
  bundle_fec_adds : Nat
  /-- number of `fec_stream_new` + `fec_stream_init` calls made so far -/
  fec_streams_created : Nat
  deriving DecidableEq, Repr

/-- `media_stream_handle_fec` (`mediastream.c:970-997`); `freshSession` and
`freshStream` stand for the objects returned by `rtp_session_new` and
`fec_stream_new`. -/
def media_stream_handle_fec (ms : FecCoordState) (profile : RtpProfile)
    (freshSession freshStream : Nat) : FecCoordState :=
  match profile.flexfec_payload with
  | none => ms
  | some (ptNumber, fmtp) =>
      let ms := { ms with rtp_jitter_compensation := 200 }
      let ms :=
        if ms.fec_session = none then
          { ms with fec_session := some freshSession,
                    fec_sessions_created := ms.fec_sessions_created + 1 }
        else ms
      { ms with fec_session_payload_type := some ptNumber,
                bundle_fec_adds := ms.bundle_fec_adds + 1,
                fec_stream := some freshStream,
                fec_stream_params := some (media_stream_extract_fec_params fmtp),
                fec_streams_created := ms.fec_streams_created + 1 }

/-! ### VideoToolbox decoder teardown
(`videotoolbox-decoder.cpp:155-173`, `231-268`) -/

/-- The decoder state shared between the tick thread and the asynchronous
output callback; a queued `Frame` holds a pixel buffer or is empty (the
empty `Frame()` pushed on a decode error). -/
structure VTDecoderState where
  destroying : Bool
  frameQueue : List (Option Nat)
  session : Option Nat
  formatDesc : Option Nat
  deriving DecidableEq, Repr

/-- `VideoToolboxDecoder::outputCb` (`videotoolbox-decoder.cpp:231-268`):
runs under the shared mutex; `statusOk` models `status == noErr`,
`imageBuffer` the delivered image, `pixbuf` the buffer the copied frame
would occupy. -/
def VideoToolboxDecoder_outputCb (st : VTDecoderState) (statusOk : Bool)
    (imageBuffer : Option Nat) (pixbuf : Nat) : VTDecoderState :=
  if st.destroying then st
  else if ¬statusOk ∨ imageBuffer = none then
    { st with frameQueue := st.frameQueue ++ [none] }
  else { st with frameQueue := st.frameQueue ++ [some pixbuf] }

/-- The atomic steps of `VideoToolboxDecoder::destroyDecoder`. -/
inductive DestroyStep where
  | lockMutex
  | setDestroyingFlag
  | unlockMutex
  | waitAsyncFrames
  | invalidateSession
  | releaseSession
  | releaseFormatDesc
  | clearSessionPtr
  | clearFormatDescPtr
  | clearDestroyingFlag
  deriving DecidableEq, Repr

/-- `VideoToolboxDecoder::destroyDecoder` (`videotoolbox-decoder.cpp:155-173`)
as its sequence of steps, in source order. -/
def VideoToolboxDecoder_destroyDecoder_steps : List DestroyStep :=
  [DestroyStep.lockMutex, DestroyStep.setDestroyingFlag, DestroyStep.unlockMutex,
   DestroyStep.waitAsyncFrames, DestroyStep.invalidateSession, DestroyStep.releaseSession,
   DestroyStep.releaseFormatDesc, DestroyStep.clearSessionPtr,
   DestroyStep.clearFormatDescPtr, DestroyStep.clearDestroyingFlag]

/-- Net state effect of `VideoToolboxDecoder::destroyDecoder`. -/
def VideoToolboxDecoder_destroyDecoder (st : VTDecoderState) : VTDecoderState :=
  { st with destroying := false, session := none, formatDesc := none }

/-! ### Concrete demonstration states used by witnesses and counterexamples -/

/-- A stream whose ZRTP context is active and whose DTLS slot is empty. -/
def dtlsDemoStream : MediaStream :=
  { sessions := { rtp_session := some 1, srtp_context := none, zrtp_context := some 2,
                  dtls_context := none, fec_session := none, ticker := none },
    owns_sessions := true, stun_allowed := true, ice_check_list := none,
    bundled_not_primary := false, rtpsend := none, rtpsend_stun_enabled := false,
    rtpsend_stun_forced := false, evq := none, evd := none, rc := none, rtprecv := none,
    encoder := none, decoder := none, voidsink := none, qi := none }

/-! ## Claim theorems -/

/-- C1 counterexample: enabling DTLS-SRTP on a concrete stream whose ZRTP
context is active (and whose DTLS slot is empty) leaves BOTH contexts
non-null: the second context is created and the at-most-one invariant is
violated, contrary to the claim that exactly one of the two remains
non-null. -/
theorem enable_dtls_two_contexts_counterexample :
    securityContextCount dtlsDemoStream.sessions = 1 ∧
    (media_stream_enable_dtls dtlsDemoStream 7).sessions.zrtp_context = some 2 ∧
    (media_stream_enable_dtls dtlsDemoStream 7).sessions.dtls_context = some 7 ∧
    securityContextCount (media_stream_enable_dtls dtlsDemoStream 7).sessions = 2 := by
  decide

/-- C1 (amended): `media_stream_enable_dtls` guards only its own slot — it
is a no-op when a DTLS context already exists, and otherwise creates the
DTLS context regardless of the ZRTP (or SDES/SRTP) context, leaving the
other contexts untouched; in particular, enabling DTLS while ZRTP is
active yields two simultaneously non-null security contexts. -/
theorem media_stream_enable_dtls_slot_guard (s : MediaStream) (ctx : Nat) :
    (s.sessions.dtls_context ≠ none → media_stream_enable_dtls s ctx = s) ∧
    (s.sessions.dtls_context = none →
      (media_stream_enable_dtls s ctx).sessions.dtls_context = some ctx ∧
      (media_stream_enable_dtls s ctx).sessions.zrtp_context = s.sessions.zrtp_context ∧
      (media_stream_enable_dtls s ctx).sessions.srtp_context = s.sessions.srtp_context ∧
      (s.sessions.zrtp_context ≠ none →
        2 ≤ securityContextCount (media_stream_enable_dtls s ctx).sessions)) := by
  constructor
  · intro h
    simp [media_stream_enable_dtls, h]
  · intro h
    have hsess : (media_stream_enable_dtls s ctx).sessions =
        { s.sessions with dtls_context := some ctx } := by
      simp only [media_stream_enable_dtls, h, if_pos,
        media_stream_configure_stun_packet_sending]
      split_ifs <;> rfl
    refine ⟨by simp [hsess], by simp [hsess], by simp [hsess], ?_⟩
    intro hz
    simp [hsess, securityContextCount, hz]

/-- C1 witness: the amended theorem applied to the concrete ZRTP-active
stream. -/
theorem media_stream_enable_dtls_slot_guard_witness :
    (media_stream_enable_dtls dtlsDemoStream 7).sessions.dtls_context = some 7 ∧
    2 ≤ securityContextCount (media_stream_enable_dtls dtlsDemoStream 7).sessions := by
  have h := (media_stream_enable_dtls_slot_guard dtlsDemoStream 7).2 (by decide)
  exact ⟨h.1, h.2.2.2 (by decide)⟩

/-- C2: every (name, params) pair that the §6 table lists as valid
round-trips through `ms_crypto_suite_build_from_name_params` and
`ms_crypto_suite_to_name_params` to the same pair; every combination the
table marks Invalid builds to `MS_CRYPTO_SUITE_INVALID`; and every
unknown name builds to `MS_CRYPTO_SUITE_INVALID` for any params. -/
theorem crypto_suite_name_params_roundtrip (name : String) (params : Option String)
    (h : name ∉ knownSuiteNames) :
    (validNameParamsTable.all fun d =>
       ms_crypto_suite_to_name_params (ms_crypto_suite_build_from_name_params d)
         = some d) = true ∧
    (invalidNameParamsTable.all fun d =>
       ms_crypto_suite_build_from_name_params d = MS_CRYPTO_SUITE_INVALID) = true ∧
    ms_crypto_suite_build_from_name_params ⟨name, params⟩ = MS_CRYPTO_SUITE_INVALID := by
  refine ⟨by decide, by decide, ?_⟩
  simp only [knownSuiteNames, List.mem_cons, List.mem_singleton, not_or] at h
  obtain ⟨h1, h2, h3, h4, h5, h6, h7⟩ := h
  simp [ms_crypto_suite_build_from_name_params, h1, h2, h3, h4, h5, h6, h7]

/-- C2 witness: the theorem applied at a concrete unknown suite name. -/
theorem crypto_suite_name_params_roundtrip_witness :
    ms_crypto_suite_build_from_name_params ⟨"AES_CM_192_HMAC_SHA1_80", some "x"⟩
      = MS_CRYPTO_SUITE_INVALID :=
  (crypto_suite_name_params_roundtrip "AES_CM_192_HMAC_SHA1_80" (some "x") (by decide)).2.2

/-- C8: the three security query operations return their defined
unavailable/invalid values (`false`, `MSSrtpKeySourceUnavailable`,
`MS_CRYPTO_SUITE_INVALID`) for every stream that is not in the `Started`
state, for every direction and inner flag, and likewise for a stream of
unknown media type even when `Started`. -/
theorem security_queries_defined_outside_started (s : QueryStream)
    (dir : MediaStreamDir) (inner : Bool) :
    (s.state ≠ MSStreamState.MSStreamStarted →
      media_stream_secured s = false ∧
      media_stream_get_srtp_key_source s dir inner
        = MSSrtpKeySource.MSSrtpKeySourceUnavailable ∧
      media_stream_get_srtp_crypto_suite s dir inner = MS_CRYPTO_SUITE_INVALID) ∧
    (s.type = MSFormatType.MSUnknownMedia →
      media_stream_secured s = false ∧
      media_stream_get_srtp_key_source s dir inner
        = MSSrtpKeySource.MSSrtpKeySourceUnavailable ∧
      media_stream_get_srtp_crypto_suite s dir inner = MS_CRYPTO_SUITE_INVALID) := by
  constructor
  · intro h
    simp [media_stream_secured, media_stream_get_srtp_key_source,
          media_stream_get_srtp_crypto_suite, h]
  · intro h
    refine ⟨?_, ?_, ?_⟩ <;>
      simp only [media_stream_secured, media_stream_get_srtp_key_source,
        media_stream_get_srtp_crypto_suite, h] <;>
      split_ifs <;> rfl

/-- C8 witness: the theorem applied to a concrete non-`Started` audio
stream whose underlying session queries would report secured/ZRTP. -/
theorem security_queries_defined_outside_started_witness :
    media_stream_secured
      ⟨MSStreamState.MSStreamPreparing, MSFormatType.MSAudio,
       MediaStreamDir.MediaStreamSendRecv, fun _ => true,
       fun _ _ => MSSrtpKeySource.MSSrtpKeySourceZRTP,
       fun _ _ => MS_AES_128_SHA1_80⟩ = false :=
  ((security_queries_defined_outside_started
      ⟨MSStreamState.MSStreamPreparing, MSFormatType.MSAudio,
       MediaStreamDir.MediaStreamSendRecv, fun _ => true,
       fun _ _ => MSSrtpKeySource.MSSrtpKeySourceZRTP,
       fun _ _ => MS_AES_128_SHA1_80⟩
      MediaStreamDir.MediaStreamSendRecv true).1 (by decide)).1

/-- C9: whenever the tearing-down flag `_destroying` is set when the
decoder output callback runs, the callback returns without modifying the
frame queue or any other decoder state; and in `destroyDecoder` the flag
is set under the shared lock (between lock and unlock) strictly before the
session is invalidated. -/
theorem outputCb_discarded_while_destroying (st : VTDecoderState) (statusOk : Bool)
    (imageBuffer : Option Nat) (pixbuf : Nat) (h : st.destroying = true) :
    VideoToolboxDecoder_outputCb st statusOk imageBuffer pixbuf = st ∧
    VideoToolboxDecoder_destroyDecoder_steps.indexOf DestroyStep.lockMutex <
      VideoToolboxDecoder_destroyDecoder_steps.indexOf DestroyStep.setDestroyingFlag ∧
    VideoToolboxDecoder_destroyDecoder_steps.indexOf DestroyStep.setDestroyingFlag <
      VideoToolboxDecoder_destroyDecoder_steps.indexOf DestroyStep.unlockMutex ∧
    VideoToolboxDecoder_destroyDecoder_steps.indexOf DestroyStep.setDestroyingFlag <
      VideoToolboxDecoder_destroyDecoder_steps.indexOf DestroyStep.invalidateSession := by
  refine ⟨?_, by decide, by decide, by decide⟩
  simp [VideoToolboxDecoder_outputCb, h]

/-- C9 witness: the theorem applied to a concrete tearing-down decoder
state receiving a successful late delivery. -/
theorem outputCb_discarded_while_destroying_witness :
    VideoToolboxDecoder_outputCb ⟨true, [some 3], some 1, some 2⟩ true (some 4) 5
      = ⟨true, [some 3], some 1, some 2⟩ :=
  (outputCb_discarded_while_destroying ⟨true, [some 3], some 1, some 2⟩ true (some 4) 5
    rfl).1

lemma resource_mem_ite (c : Prop) [Decidable c] (a b : Resource) :
    (a ∈ if c then [b] else []) ↔ c ∧ a = b := by
  split_ifs with h <;> simp [h]

/-- C10: after `media_stream_reclaim_sessions` has copied the session
handles out and flipped the stream to non-owning, `media_stream_free`
releases neither the transport, nor the security contexts, nor the ticker
(the sessions-uninit step is skipped); a stream that still owns its
sessions has destruction release every present sub-resource. -/
theorem reclaim_skips_session_release (s : MediaStream) :
    ((media_stream_reclaim_sessions s).1 = s.sessions ∧
     (media_stream_reclaim_sessions s).2.owns_sessions = false ∧
     Resource.rtpSessionRes ∉ media_stream_free (media_stream_reclaim_sessions s).2 ∧
     Resource.srtpContext ∉ media_stream_free (media_stream_reclaim_sessions s).2 ∧
     Resource.zrtpContext ∉ media_stream_free (media_stream_reclaim_sessions s).2 ∧
     Resource.dtlsContext ∉ media_stream_free (media_stream_reclaim_sessions s).2 ∧
     Resource.tickerRes ∉ media_stream_free (media_stream_reclaim_sessions s).2) ∧
    (s.owns_sessions = true →
      (s.sessions.rtp_session ≠ none → Resource.rtpSessionRes ∈ media_stream_free s) ∧
      (s.sessions.srtp_context ≠ none → Resource.srtpContext ∈ media_stream_free s) ∧
      (s.sessions.zrtp_context ≠ none → Resource.zrtpContext ∈ media_stream_free s) ∧
      (s.sessions.dtls_context ≠ none → Resource.dtlsContext ∈ media_stream_free s) ∧
      (s.sessions.ticker ≠ none → Resource.tickerRes ∈ media_stream_free s)) ∧
    ((s.evq ≠ none → Resource.evQueue ∈ media_stream_free s) ∧
     (s.evd ≠ none → Resource.evDispatcher ∈ media_stream_free s) ∧
     (s.rc ≠ none → Resource.bitrateController ∈ media_stream_free s) ∧
     (s.rtpsend ≠ none → Resource.rtpsendFilter ∈ media_stream_free s) ∧
     (s.rtprecv ≠ none → Resource.rtprecvFilter ∈ media_stream_free s) ∧
     (s.encoder ≠ none → Resource.encoderFilter ∈ media_stream_free s) ∧
     (s.decoder ≠ none → Resource.decoderFilter ∈ media_stream_free s) ∧
     (s.voidsink ≠ none → Resource.voidsinkFilter ∈ media_stream_free s) ∧
     (s.qi ≠ none → Resource.qualityIndicator ∈ media_stream_free s)) := by
  refine ⟨⟨rfl, rfl, ?_, ?_, ?_, ?_, ?_⟩, ?_, ?_⟩
  · simp [media_stream_free, media_stream_reclaim_sessions, List.mem_append, resource_mem_ite]
  · simp [media_stream_free, media_stream_reclaim_sessions, List.mem_append, resource_mem_ite]
  · simp [media_stream_free, media_stream_reclaim_sessions, List.mem_append, resource_mem_ite]
  · simp [media_stream_free, media_stream_reclaim_sessions, List.mem_append, resource_mem_ite]
  · simp [media_stream_free, media_stream_reclaim_sessions, List.mem_append, resource_mem_ite]
  · intro h
    refine ⟨fun hr => ?_, fun hr => ?_, fun hr => ?_, fun hr => ?_, fun hr => ?_⟩ <;>
      simp [media_stream_free, ms_media_stream_sessions_uninit, h, hr,
        List.mem_append, resource_mem_ite]
  · refine ⟨fun hr => ?_, fun hr => ?_, fun hr => ?_, fun hr => ?_, fun hr => ?_,
      fun hr => ?_, fun hr => ?_, fun hr => ?_, fun hr => ?_⟩ <;>
      simp [media_stream_free, hr, List.mem_append, resource_mem_ite]

/-- C10 witness: the theorem applied to a concrete fully-populated owning
stream and to its reclaimed counterpart. -/
theorem reclaim_skips_session_release_witness :
    Resource.rtpSessionRes ∉
      media_stream_free (media_stream_reclaim_sessions dtlsDemoStream).2 ∧
    Resource.rtpSessionRes ∈ media_stream_free dtlsDemoStream := by
  have h := reclaim_skips_session_release dtlsDemoStream
  exact ⟨h.1.2.2.1, (h.2.1 (by decide)).1 (by decide)⟩

/-- C3: with an encoder present, a TMMBR limit is capped to
`max_target_bitrate` whenever that ceiling is positive and exceeded (the
capped value is what gets applied to the target bitrate and the session's
target upload bandwidth), and a TMMBR whose resulting limit equals the
previously applied limit (the session's current target upload bandwidth)
is a no-op: result −1 and a completely unchanged state, so no encoder
call and no session bitrate update. -/
theorem tmmbr_cap_and_idempotence (obj : TmmbrStream) (br : Int)
    (henc : obj.encoder ≠ none) :
    (obj.max_target_bitrate > 0 → br > obj.max_target_bitrate →
      obj.session_target_upload_bandwidth ≠ obj.max_target_bitrate →
      (update_bitrate_limit_from_tmmbr obj br).1 = obj.max_target_bitrate ∧
      (update_bitrate_limit_from_tmmbr obj br).2.session_target_upload_bandwidth
        = obj.max_target_bitrate ∧
      (update_bitrate_limit_from_tmmbr obj br).2.target_bitrate
        = obj.max_target_bitrate) ∧
    ((if obj.max_target_bitrate > 0 ∧ br > obj.max_target_bitrate
        then obj.max_target_bitrate else br) = obj.session_target_upload_bandwidth →
      update_bitrate_limit_from_tmmbr obj br = (-1, obj)) := by
  constructor
  · intro h1 h2 h3
    simp only [update_bitrate_limit_from_tmmbr, if_neg henc, if_pos (And.intro h1 h2),
      if_neg h3]
    exact ⟨trivial, trivial, trivial⟩
  · intro h
    simp only [update_bitrate_limit_from_tmmbr, if_neg henc]
    rw [if_pos]
    omega

/-- C3 witness: a TMMBR of 500000 bps on a concrete audio stream with
`max_target_bitrate = 300000` applies 300000, and a second identical
TMMBR on the resulting state is a no-op. -/
theorem tmmbr_cap_and_idempotence_witness :
    (update_bitrate_limit_from_tmmbr
      ⟨MSFormatType.MSAudio, some 1, none, 0, 300000, 0, 0, false, false, 1⟩ 500000).1
      = 300000 ∧
    update_bitrate_limit_from_tmmbr
      (update_bitrate_limit_from_tmmbr
        ⟨MSFormatType.MSAudio, some 1, none, 0, 300000, 0, 0, false, false, 1⟩ 500000).2
      500000
      = (-1, (update_bitrate_limit_from_tmmbr
          ⟨MSFormatType.MSAudio, some 1, none, 0, 300000, 0, 0, false, false, 1⟩ 500000).2) := by
  constructor
  · exact ((tmmbr_cap_and_idempotence
      ⟨MSFormatType.MSAudio, some 1, none, 0, 300000, 0, 0, false, false, 1⟩ 500000
      (by decide)).1 (by decide) (by decide) (by decide)).1
  · exact (tmmbr_cap_and_idempotence
      (update_bitrate_limit_from_tmmbr
        ⟨MSFormatType.MSAudio, some 1, none, 0, 300000, 0, 0, false, false, 1⟩ 500000).2
      500000 (by decide)).2 (by decide)

/-- C4: `media_stream_alive` returns alive for every stream that never
reached `Started`, for any timeout including 0; on a started stream (with
a monotone cumulative packet counter) it refreshes `last_packet_time` to
`now` exactly when the received-packet count differs from the last
sample, and returns not-alive iff `now − last_packet_time` (after the
refresh) exceeds `timeout`. -/
theorem media_stream_alive_spec (ms : AliveStream) (stats_recv : Nat) (now timeout : Int) :
    (ms.state ≠ MSStreamState.MSStreamStarted →
      media_stream_alive ms stats_recv now timeout = (true, ms)) ∧
    (ms.state = MSStreamState.MSStreamStarted → ms.last_packet_count ≤ stats_recv →
      (stats_recv ≠ ms.last_packet_count →
        (media_stream_alive ms stats_recv now timeout).2.last_packet_time = now ∧
        (media_stream_alive ms stats_recv now timeout).2.last_packet_count = stats_recv) ∧
      (stats_recv = ms.last_packet_count →
        (media_stream_alive ms stats_recv now timeout).2 = ms) ∧
      ((media_stream_alive ms stats_recv now timeout).1 = false ↔
        now - (media_stream_alive ms stats_recv now timeout).2.last_packet_time
          > timeout)) := by
  constructor
  · intro h
    simp [media_stream_alive, h]
  · intro hs hm
    have hne : stats_recv ≠ ms.last_packet_count → stats_recv ≠ 0 := by omega
    simp only [media_stream_alive, hs, ne_eq, not_true_eq_false, if_false]
    refine ⟨fun hd => ?_, fun hd => ?_, ?_⟩
    · have hrec : stats_recv ≠ 0 := hne hd
      simp only [if_pos hrec, if_pos hd]
      split_ifs <;> simp
    · simp only [hd, not_true_eq_false, if_false, ite_self]
      split_ifs <;> rfl
    · split_ifs <;> simp_all

/-- C4 witness: a never-started stream is alive at timeout 0; a stream
started with `last_packet_time = 100` and no packets is not alive at time
111 with timeout 10; with one packet received it refreshes and is alive. -/
theorem media_stream_alive_spec_witness :
    media_stream_alive ⟨MSStreamState.MSStreamPreparing, 0, 0⟩ 0 0 0
      = (true, ⟨MSStreamState.MSStreamPreparing, 0, 0⟩) ∧
    (media_stream_alive ⟨MSStreamState.MSStreamStarted, 0, 100⟩ 0 111 10).1 = false ∧
    (media_stream_alive ⟨MSStreamState.MSStreamStarted, 0, 100⟩ 1 111 10).2.last_packet_time
      = 111 := by
  refine ⟨(media_stream_alive_spec ⟨MSStreamState.MSStreamPreparing, 0, 0⟩ 0 0 0).1
    (by decide), ?_, ?_⟩
  · exact ((media_stream_alive_spec ⟨MSStreamState.MSStreamStarted, 0, 100⟩ 0 111 10).2
      rfl (by decide)).2.2.mpr (by decide)
  · exact (((media_stream_alive_spec ⟨MSStreamState.MSStreamStarted, 0, 100⟩ 1 111 10).2
      rfl (by decide)).1 (by decide)).1

lemma updateLiveness_not_in_subActions (s : RtcpStream) (l : List Nat) :
    RtcpAction.updateLiveness ∉ l.flatMap (rtcpSubPacketActions s) := by
  intro h
  rw [List.mem_flatMap] at h
  obtain ⟨n, _, hmem⟩ := h
  revert hmem
  simp only [rtcpSubPacketActions, List.mem_append]
  split_ifs <;> simp

/-- C5: `media_stream_process_rtcp` updates the liveness timestamp exactly
once per compound packet (not per sub-packet); each well-formed sub-packet
is processed in arrival order, with the bitrate controller fed first (when
adaptive control is enabled and present), then the quality indicator (when
present), then the stream-type hook; and a malformed or truncated
sub-packet anywhere in the compound packet is dropped individually —
removing it changes nothing, so neither the remaining sub-packets nor the
liveness update are lost. -/
theorem process_rtcp_liveness_once_and_resilient (s : RtcpStream)
    (subs pre post : List RtcpSubPacket) (curtime : Int) :
    (media_stream_process_rtcp s subs curtime).2.count RtcpAction.updateLiveness = 1 ∧
    (media_stream_process_rtcp s subs curtime).1.last_packet_time = curtime ∧
    media_stream_process_rtcp s (pre ++ RtcpSubPacket.malformed :: post) curtime
      = media_stream_process_rtcp s (pre ++ post) curtime ∧
    (media_stream_process_rtcp s subs curtime).2
      = RtcpAction.updateLiveness ::
          (rtcpWalkerPackets subs).flatMap (rtcpSubPacketActions s) := by
  refine ⟨?_, rfl, ?_, rfl⟩
  · simp only [media_stream_process_rtcp, List.count_cons_self]
    rw [List.count_eq_zero.mpr (updateLiveness_not_in_subActions s (rtcpWalkerPackets subs))]
  · have hw : rtcpWalkerPackets (pre ++ RtcpSubPacket.malformed :: post)
        = rtcpWalkerPackets (pre ++ post) := by
      simp [rtcpWalkerPackets, List.filterMap_append]
    simp [media_stream_process_rtcp, hw]

/-- C6 counterexample: invoking `media_stream_handle_fec` on a concrete
stream that already owns a FEC session (with the same negotiated flexfec
profile) does NOT leave the FEC state untouched — it re-binds into the
bundle again and constructs a new FEC stream object. -/
theorem handle_fec_not_idempotent_counterexample :
    media_stream_handle_fec
        ⟨60, some 5, some 7, some ⟨10, 0, 100000⟩, some 96, 1, 1, 1⟩ ⟨some (96, [])⟩ 8 9
      ≠ ⟨60, some 5, some 7, some ⟨10, 0, 100000⟩, some 96, 1, 1, 1⟩ ∧
    (media_stream_handle_fec
        ⟨60, some 5, some 7, some ⟨10, 0, 100000⟩, some 96, 1, 1, 1⟩
        ⟨some (96, [])⟩ 8 9).bundle_fec_adds = 2 ∧
    (media_stream_handle_fec
        ⟨60, some 5, some 7, some ⟨10, 0, 100000⟩, some 96, 1, 1, 1⟩
        ⟨some (96, [])⟩ 8 9).fec_streams_created = 2 ∧
    (media_stream_handle_fec
        ⟨60, some 5, some 7, some ⟨10, 0, 100000⟩, some 96, 1, 1, 1⟩
        ⟨some (96, [])⟩ 8 9).fec_stream = some 9 := by
  refine ⟨?_, by decide, by decide, by decide⟩
  decide

/-- C6 (amended): only the secondary-session creation in
`media_stream_handle_fec` is guarded — a stream that already owns a FEC
session gets no new secondary RTP session (the existing one is kept), but
a subsequent invocation still re-binds that session into the bundle and
constructs+initializes a new FEC stream object. -/
theorem handle_fec_secondary_session_guarded (ms : FecCoordState) (profile : RtpProfile)
    (pt : Int) (fmtp : List (String × String)) (sId freshSession freshStream : Nat)
    (hp : profile.flexfec_payload = some (pt, fmtp))
    (hs : ms.fec_session = some sId) :
    (media_stream_handle_fec ms profile freshSession freshStream).fec_session = some sId ∧
    (media_stream_handle_fec ms profile freshSession freshStream).fec_sessions_created
      = ms.fec_sessions_created ∧
    (media_stream_handle_fec ms profile freshSession freshStream).bundle_fec_adds
      = ms.bundle_fec_adds + 1 ∧
    (media_stream_handle_fec ms profile freshSession freshStream).fec_streams_created
      = ms.fec_streams_created + 1 ∧
    (media_stream_handle_fec ms profile freshSession freshStream).fec_stream
      = some freshStream := by
  simp [media_stream_handle_fec, hp, hs]

/-- C6 witness: the amended theorem applied to the concrete FEC-owning
stream. -/
theorem handle_fec_secondary_session_guarded_witness :
    (media_stream_handle_fec
        ⟨60, some 5, some 7, some ⟨10, 0, 100000⟩, some 96, 1, 1, 1⟩
        ⟨some (96, [])⟩ 8 9).fec_session = some 5 ∧
    (media_stream_handle_fec
        ⟨60, some 5, some 7, some ⟨10, 0, 100000⟩, some 96, 1, 1, 1⟩
        ⟨some (96, [])⟩ 8 9).fec_sessions_created = 1 := by
  have h := handle_fec_secondary_session_guarded
    ⟨60, some 5, some 7, some ⟨10, 0, 100000⟩, some 96, 1, 1, 1⟩
    ⟨some (96, [])⟩ 96 [] 5 8 9 rfl rfl
  exact ⟨h.1, h.2.1⟩

/-- C7 counterexample: an fmtp whose `repair-window` attribute is present
but non-numeric does NOT yield the default 100000 — the value goes through
`atoi`, which yields 0 for a non-numeric string. -/
theorem extract_fec_params_unparsable_counterexample :
    media_stream_extract_fec_params [("repair-window", "garbage")] = ⟨10, 0, 0⟩ ∧
    (media_stream_extract_fec_params [("repair-window", "garbage")]).repair_window
      ≠ 100000 := by
  constructor <;> decide

/-- C7 (amended): FEC parameter extraction returns the defaults
(`repair_window = 100000`, `L = 10`, `D = 0`) exactly for the attributes
missing from the fmtp; an attribute that is present is parsed with `atoi`
(so a present but non-numeric value yields 0 from `atoi`, not the default);
`repair-window=50000;L=4;D=2` yields `{50000, 4, 2}`. -/
theorem extract_fec_params_defaults_and_parse (fmtp : List (String × String)) :
    (fmtp_get_value fmtp "repair-window" = none →
      (media_stream_extract_fec_params fmtp).repair_window = 100000) ∧
    (fmtp_get_value fmtp "L" = none → (media_stream_extract_fec_params fmtp).L = 10) ∧
    (fmtp_get_value fmtp "D" = none → (media_stream_extract_fec_params fmtp).D = 0) ∧
    (∀ v, fmtp_get_value fmtp "repair-window" = some v →
      (media_stream_extract_fec_params fmtp).repair_window = atoi v) ∧
    (∀ v, fmtp_get_value fmtp "L" = some v →
      (media_stream_extract_fec_params fmtp).L = atoi v) ∧
    (∀ v, fmtp_get_value fmtp "D" = some v →
      (media_stream_extract_fec_params fmtp).D = atoi v) ∧
    media_stream_extract_fec_params [("repair-window", "50000"), ("L", "4"), ("D", "2")]
      = ⟨4, 2, 50000⟩ ∧
    media_stream_extract_fec_params [] = ⟨10, 0, 100000⟩ := by
  refine ⟨fun h => ?_, fun h => ?_, fun h => ?_, fun v h => ?_, fun v h => ?_,
    fun v h => ?_, by decide, by decide⟩ <;>
    simp [media_stream_extract_fec_params, h]

/-- C7 witness: the amended theorem applied to the concrete fmtp of the
spec example and to the empty fmtp. -/
theorem extract_fec_params_defaults_and_parse_witness :
    media_stream_extract_fec_params [("repair-window", "50000"), ("L", "4"), ("D", "2")]
      = ⟨4, 2, 50000⟩ ∧
    (media_stream_extract_fec_params []).repair_window = 100000 := by
  exact ⟨(extract_fec_params_defaults_and_parse []).2.2.2.2.2.2.1,
    (extract_fec_params_defaults_and_parse []).1 rfl⟩

end Mediastream
